import Mathlib

/-!
# Verification of the `fogfish/faults` error-annotation library

Shallow embedding of the Go package `faults`: context values (`Type`,
`Fast`, `Safe1`..`Safe5`, `ErrNotFound` from `errors.go` / `common.go`),
the composite error `errType`, its rendering (`errType.Error`), the chain
operations (`Unwrap`, the standard-library `errors.Is` / `errors.As`
walks) and the behavior predicates (`IsNotFound`, `IsTimeout`,
`IsStatusCode`, `IsPreConditionFailed`, `IsConflict`, `IsGone`).

Modelling notes:
* Go `error` interface values (including the `nil` error) form the closed
  universe `Err` below.  Besides the library's own types it contains a
  plain external error (`base`, an error whose `Error()` returns a fixed
  message) and an external error implementing the `Timeout()` capability
  (`timeoutE`), so that behavior predicates have something to find.
* `runtime.Caller` is modelled as an explicit location argument
  (`name`, `line`) supplied to each `With`, following the design note of
  the specification (an injected location provider queried at combine
  time); the Go code formats it as `fmt.Sprintf("[%s %d]", name, line)`.
* Format arguments (`args ...any`) are modelled by their rendered string
  form (`List String`); every template in the library's tests and claims
  uses the `%s` verb on string arguments.
* `fmt.Sprintf` is modelled for the fragment the library exercises:
  the `%s` verb, `%%`, missing arguments (`%!s(MISSING)`), extra
  arguments (`%!(EXTRA string=..)`), a trailing `%` (`%!(NOVERB)`) and
  the bad-verb fallback `%!c(string=..)`.  A `nil` error printed with
  `%s` yields `%!s(<nil>)`.
* Go `==` on interface values compares dynamic type and value; the
  struct `errType` contains a slice field and is therefore not
  comparable, which `errors.Is` respects by checking the target's
  comparability before using `==`.
-/

namespace Faults

/-- The closed universe of Go `error` interface values used by the
package: the `nil` error, the eight declared context-value kinds (string
types `Type`, `Fast`, `Safe1[string]`..`Safe5`, `ErrNotFound`), a plain
external error, an external error carrying the `Timeout() time.Duration`
capability, the composite `errType{about, args, hd, tl}` and the
`errNotFound{err, key}` wrapper from `common.go`. -/
inductive Err where
  | nilE : Err
  | typeC (tmpl : String) : Err
  | fastC (tmpl : String) : Err
  | safe1C (tmpl : String) : Err
  | safe2C (tmpl : String) : Err
  | safe3C (tmpl : String) : Err
  | safe4C (tmpl : String) : Err
  | safe5C (tmpl : String) : Err
  | notFoundC (tmpl : String) : Err
  | base (msg : String) : Err
  | timeoutE (msg : String) (d : Int) : Err
  | comp (about : String) (args : List String) (hd : Err) (tl : Err) : Err
  | nf (inner : Err) (key : String) : Err
deriving DecidableEq, Repr

/-- Comma-separated `string=value` list used by Go's
`%!(EXTRA type=value, type=value)` marker for surplus arguments. -/
def extraArgs : List String → String
  | [] => ""
  | [a] => "string=" ++ a
  | a :: rest => "string=" ++ a ++ ", " ++ extraArgs rest

/-- Go `fmt.Sprintf` restricted to the fragment the package uses:
format strings whose verbs are `%s` (or `%%`), applied to string
arguments.  Mismatched counts degrade exactly as in Go: a placeholder
without an argument prints `%!s(MISSING)`, surplus arguments append
`%!(EXTRA string=..)`, a trailing `%` prints `%!(NOVERB)`; a verb other
than `s` is rendered through the bad-verb marker (exact for the
templates this library exercises, which use only `%s`). -/
def sprintfGo : List Char → List String → String
  | [], [] => ""
  | [], a :: rest => "%!(EXTRA " ++ extraArgs (a :: rest) ++ ")"
  | '%' :: 's' :: fs, a :: rest => a ++ sprintfGo fs rest
  | '%' :: 's' :: fs, [] => "%!s(MISSING)" ++ sprintfGo fs []
  | '%' :: '%' :: fs, rest => "%" ++ sprintfGo fs rest
  | '%' :: c :: fs, a :: rest =>
      "%!" ++ String.singleton c ++ "(string=" ++ a ++ ")" ++ sprintfGo fs rest
  | '%' :: c :: fs, [] => "%!" ++ String.singleton c ++ "(MISSING)" ++ sprintfGo fs []
  | ['%'], rest => "%!(NOVERB)" ++ sprintfGo [] rest
  | c :: fs, rest => String.singleton c ++ sprintfGo fs rest

/-- `fmt.Sprintf f args` on a format string. -/
def sprintfS (f : String) (args : List String) : String := sprintfGo f.data args

/-- The head part of `errType.Error`: when `args` is non-empty the head
error's text is used as a format string (`f := fmt.Sprintf("%s", e.hd)`
then `fmt.Sprintf(f, e.args...)`), otherwise the head text is emitted
literally. -/
def fmtHead (hdStr : String) (args : List String) : String :=
  if args.length != 0 then sprintfS hdStr args else hdStr

/-- `Error()` / rendering of every error value in the universe, i.e. what
`fmt.Sprintf("%s", e)` produces.  Context values render their template
text (`func (e Type) Error() string { return string(e) }` and alike);
`errType.Error` emits `about ++ " "` when `about` is non-empty, then the
(possibly formatted) head, then `": "` and the tail's rendering;
`errNotFound.Error` delegates to its wrapped error; a `nil` error printed
via `%s` gives Go's `%!s(<nil>)` marker. -/
def render : Err → String
  | .nilE => "%!s(<nil>)"
  | .typeC s => s
  | .fastC s => s
  | .safe1C s => s
  | .safe2C s => s
  | .safe3C s => s
  | .safe4C s => s
  | .safe5C s => s
  | .notFoundC s => s
  | .base s => s
  | .timeoutE s _ => s
  | .comp about args hd tl =>
      (if about.length != 0 then about ++ " " else "")
        ++ fmtHead (render hd) args ++ ": " ++ render tl
  | .nf inner _ => render inner

/-- `fmt.Sprintf("[%s %d]", name, line)`: the caller-location token
recorded by the caller-capturing `With` variants. -/
def aboutStr (name : String) (line : Nat) : String :=
  "[" ++ name ++ " " ++ toString line ++ "]"

/-- `Type.With`: wraps `err` into the context with the caller location
and the variadic arguments (`errType{about, args, hd: e, tl: err}`). -/
def TypeWith (tmpl : String) (name : String) (line : Nat)
    (err : Err) (args : List String) : Err :=
  .comp (aboutStr name line) args (.typeC tmpl) err

/-- `Fast.With`: same composite but without the caller lookup
(`errType{args, hd: e, tl: err}`, `about` left empty). -/
def FastWith (tmpl : String) (err : Err) (args : List String) : Err :=
  .comp "" args (.fastC tmpl) err

/-- `Safe1.With`: one typed argument. -/
def Safe1With (tmpl : String) (name : String) (line : Nat)
    (err : Err) (a : String) : Err :=
  .comp (aboutStr name line) [a] (.safe1C tmpl) err

/-- `Safe2.With`: two typed arguments. -/
def Safe2With (tmpl : String) (name : String) (line : Nat)
    (err : Err) (a b : String) : Err :=
  .comp (aboutStr name line) [a, b] (.safe2C tmpl) err

/-- `Safe3.With`: three typed arguments. -/
def Safe3With (tmpl : String) (name : String) (line : Nat)
    (err : Err) (a b c : String) : Err :=
  .comp (aboutStr name line) [a, b, c] (.safe3C tmpl) err

/-- `Safe4.With`: four typed arguments. -/
def Safe4With (tmpl : String) (name : String) (line : Nat)
    (err : Err) (a b c d : String) : Err :=
  .comp (aboutStr name line) [a, b, c, d] (.safe4C tmpl) err

/-- `Safe5.With`: five typed arguments. -/
def Safe5With (tmpl : String) (name : String) (line : Nat)
    (err : Err) (a b c d e : String) : Err :=
  .comp (aboutStr name line) [a, b, c, d, e] (.safe5C tmpl) err

/-- `ErrNotFound.With` from `common.go`: builds the `Safe1[string]`
composite (note: the head stored in the composite is the converted
`Safe1[string](e)` value) and wraps it in `errNotFound{err, key}`, the
value exposing the `NotFound() string` capability. -/
def ErrNotFoundWith (tmpl : String) (name : String) (line : Nat)
    (err : Err) (key : String) : Err :=
  .nf (Safe1With tmpl name line err key) key

/-- Whether the dynamic type of the value is comparable in the sense of
Go: `errType` contains a slice field (`args []any`) and is the only
non-comparable type in the universe.  `errors.Is` consults this for the
target before ever using `==`. -/
def comparableTy : Err → Bool
  | .comp _ _ _ _ => false
  | _ => true

/-- The recursive walk `is(err, target, targetComparable)` of the Go
standard library: at each node, if the target's type is comparable, test
interface equality `err == target`; then continue through `Unwrap`.
`errType` exposes `Unwrap() []error` returning `[hd, tl]` (walked
depth-first, head first; a nil child simply fails every test, exactly as
in Go, since the target seen here is never nil); `errNotFound` exposes
`Unwrap() error` returning the wrapped composite; no type here
implements an `Is(error) bool` method.  (Structural equality `e = t`
coincides with Go `==` for every comparable target; the walk is never
entered with a non-comparable target equal to a node.) -/
def isRec (e t : Err) : Bool :=
  (comparableTy t && decide (e = t)) ||
    match e with
    | .comp _ _ hd tl => isRec hd t || isRec tl t
    | .nf inner _ => isRec inner t
    | _ => false

/-- `errors.Is e t` of the Go standard library over this universe:
`if err == nil || target == nil \x7b return err == target \x7d`, then the
recursive walk `is` with the target's comparability. -/
def isErr (e t : Err) : Bool :=
  if e = Err.nilE ∨ t = Err.nilE then decide (e = t) else isRec e t

/-- `errors.As(err, &e)` for the target interface
`interface \x7b NotFound() string \x7d`: depth-first search for the first
node whose type implements the accessor (`errNotFound` is the only
implementer), skipping `nil` children, returning the accessor's value. -/
def asNotFound : Err → Option String
  | .nf _ key => some key
  | .comp _ _ hd tl =>
      match asNotFound hd with
      | some k => some k
      | none => asNotFound tl
  | _ => none

/-- `errors.As(err, &e)` for `interface \x7b Timeout() time.Duration \x7d`
(durations modelled as integers of nanoseconds): only the external
`timeoutE` error implements it; `errNotFound` does not and is walked
through its single `Unwrap`. -/
def asTimeout : Err → Option Int
  | .timeoutE _ d => some d
  | .comp _ _ hd tl =>
      match asTimeout hd with
      | some d => some d
      | none => asTimeout tl
  | .nf inner _ => asTimeout inner
  | _ => none

/-- `errors.As` for `interface \x7b StatusCode() string \x7d`: no type in
this universe implements the accessor, so the walk finds nothing. -/
def asStatusCode : Err → Option String
  | .comp _ _ hd tl =>
      match asStatusCode hd with
      | some c => some c
      | none => asStatusCode tl
  | .nf inner _ => asStatusCode inner
  | _ => none

/-- `errors.As` for `interface \x7b PreConditionFailed() bool \x7d`: no
implementer in this universe. -/
def asPreCond : Err → Option Bool
  | .comp _ _ hd tl =>
      match asPreCond hd with
      | some b => some b
      | none => asPreCond tl
  | .nf inner _ => asPreCond inner
  | _ => none

/-- `errors.As` for `interface \x7b Conflict() bool \x7d`: no implementer
in this universe. -/
def asConflict : Err → Option Bool
  | .comp _ _ hd tl =>
      match asConflict hd with
      | some b => some b
      | none => asConflict tl
  | .nf inner _ => asConflict inner
  | _ => none

/-- `errors.As` for `interface \x7b Gone() bool \x7d`: no implementer in
this universe. -/
def asGone : Err → Option Bool
  | .comp _ _ hd tl =>
      match asGone hd with
      | some b => some b
      | none => asGone tl
  | .nf inner _ => asGone inner
  | _ => none

/-- `faults.IsTimeout(err, deadline)`: `errors.As` for the `Timeout`
capability, then `ok && e.Timeout() >= deadline`. -/
def IsTimeout (e : Err) (deadline : Int) : Bool :=
  match asTimeout e with
  | some d => decide (deadline ≤ d)
  | none => false

/-- `faults.IsNotFound(err, key...)`: `errors.As` for the `NotFound`
capability; with no candidate keys the reported key must be non-empty,
otherwise the reported key must equal one of the candidates. -/
def IsNotFound (e : Err) (key : List String) : Bool :=
  match asNotFound e with
  | none => false
  | some k =>
      if key.length == 0 then decide (k ≠ "")
      else key.any (fun x => decide (k = x))

/-- `faults.IsStatusCode(err, code...)`: same query shape over the
`StatusCode` capability. -/
def IsStatusCode (e : Err) (code : List String) : Bool :=
  match asStatusCode e with
  | none => false
  | some c =>
      if code.length == 0 then decide (c ≠ "")
      else code.any (fun x => decide (c = x))

/-- `faults.IsPreConditionFailed(err)`: `ok && e.PreConditionFailed()`. -/
def IsPreConditionFailed (e : Err) : Bool :=
  match asPreCond e with
  | some b => b
  | none => false

/-- `faults.IsConflict(err)`: `ok && e.Conflict()`. -/
def IsConflict (e : Err) : Bool :=
  match asConflict e with
  | some b => b
  | none => false

/-- `faults.IsGone(err)`: `ok && e.Gone()`. -/
def IsGone (e : Err) : Bool :=
  match asGone e with
  | some b => b
  | none => false

/-- The declared context-value kinds (bare, never combined): the eight
string types of the package. -/
def isCtxVal : Err → Bool
  | .typeC _ => true
  | .fastC _ => true
  | .safe1C _ => true
  | .safe2C _ => true
  | .safe3C _ => true
  | .safe4C _ => true
  | .safe5C _ => true
  | .notFoundC _ => true
  | _ => false

/-- Whether some node of the error's chain tree (the node itself, or any
node reachable through the `Unwrap` edges) implements a capability
accessor described by `impl`. -/
def chainHas (impl : Err → Bool) : Err → Bool
  | e@(.comp _ _ hd tl) => impl e || chainHas impl hd || chainHas impl tl
  | e@(.nf inner _) => impl e || chainHas impl inner
  | e => impl e

/-- A node implementing `interface \x7b Timeout() time.Duration \x7d`. -/
def implTimeout : Err → Bool
  | .timeoutE _ _ => true
  | _ => false

/-- A node implementing `interface \x7b NotFound() string \x7d`. -/
def implNotFound : Err → Bool
  | .nf _ _ => true
  | _ => false

/-- One combine step of any context-value variant: the template, the
caller location where the variant captures one, and the concrete
arguments of that step. -/
inductive Step where
  | typeS (tmpl name : String) (line : Nat) (args : List String) : Step
  | fastS (tmpl : String) (args : List String) : Step
  | safe1S (tmpl name : String) (line : Nat) (a : String) : Step
  | safe2S (tmpl name : String) (line : Nat) (a b : String) : Step
  | safe3S (tmpl name : String) (line : Nat) (a b c : String) : Step
  | safe4S (tmpl name : String) (line : Nat) (a b c d : String) : Step
  | safe5S (tmpl name : String) (line : Nat) (a b c d e : String) : Step
deriving DecidableEq, Repr

/-- Perform one combine step: the corresponding variant's `With` applied
to the inner error. -/
def applyStep : Step → Err → Err
  | .typeS t n l as, x => TypeWith t n l x as
  | .fastS t as, x => FastWith t x as
  | .safe1S t n l a, x => Safe1With t n l x a
  | .safe2S t n l a b, x => Safe2With t n l x a b
  | .safe3S t n l a b c, x => Safe3With t n l x a b c
  | .safe4S t n l a b c d, x => Safe4With t n l x a b c d
  | .safe5S t n l a b c d e, x => Safe5With t n l x a b c d e

/-- The declared context value a step combines with (the `hd` its `With`
stores in the composite). -/
def ctxOf : Step → Err
  | .typeS t _ _ _ => .typeC t
  | .fastS t _ => .fastC t
  | .safe1S t _ _ _ => .safe1C t
  | .safe2S t _ _ _ _ => .safe2C t
  | .safe3S t _ _ _ _ _ => .safe3C t
  | .safe4S t _ _ _ _ _ _ => .safe4C t
  | .safe5S t _ _ _ _ _ _ _ => .safe5C t

/-- An arbitrarily deep, arbitrarily mixed nest of context-value
combinations, the innermost error being `e`. -/
def nestCtx : List Step → Err → Err
  | [], e => e
  | s :: rest, e => applyStep s (nestCtx rest e)

/-! ## Helper lemmas -/

theorem strAssoc (a b c : String) : a ++ b ++ c = a ++ (b ++ c) := by
  apply String.ext
  simp [String.data_append]

theorem isRec_refl (e : Err) (h : comparableTy e = true) : isRec e e = true := by
  cases e <;> simp_all [isRec, comparableTy]

theorem isErr_eq_isRec {e t : Err} (h : t ≠ Err.nilE) : isErr e t = isRec e t := by
  by_cases he : e = Err.nilE
  · subst he
    have hd : decide (Err.nilE = t) = false := decide_eq_false (fun hh => h hh.symm)
    simp [isErr, isRec, h, hd]
  · simp [isErr, he, h]

theorem applyStep_shape (s : Step) (x : Err) :
    ∃ ab args, applyStep s x = .comp ab args (ctxOf s) x := by
  cases s <;> exact ⟨_, _, rfl⟩

theorem nestCtx_ne_nil (ps : List Step) (E : Err) (h : E ≠ Err.nilE) :
    nestCtx ps E ≠ Err.nilE := by
  cases ps with
  | nil => exact h
  | cons s rest =>
    obtain ⟨ab, args, heq⟩ := applyStep_shape s (nestCtx rest E)
    show applyStep s (nestCtx rest E) ≠ Err.nilE
    rw [heq]
    simp

theorem aboutStr_length_ne (n : String) (l : Nat) :
    ((aboutStr n l).length != 0) = true := by
  have h : (aboutStr n l).length = ("[" ++ n ++ " " ++ toString l).length + "]".length :=
    String.length_append ..
  have h2 : "]".length = 1 := rfl
  simp [bne_iff_ne, h, h2]

theorem render_comp_about (ab : String) (h : (ab.length != 0) = true)
    (args : List String) (hd tl : Err) :
    render (.comp ab args hd tl)
      = ab ++ " " ++ fmtHead (render hd) args ++ ": " ++ render tl := by
  simp only [render]
  rw [if_pos h]

theorem render_comp_fast (args : List String) (hd tl : Err) :
    render (.comp "" args hd tl) = fmtHead (render hd) args ++ ": " ++ render tl := rfl

theorem render_comp_loc (ab : String) (h : (ab.length != 0) = true)
    (args : List String) (hd tl : Err) :
    ∃ rest, render (.comp ab args hd tl) = ab ++ " " ++ rest := by
  refine ⟨fmtHead (render hd) args ++ (": " ++ render tl), ?_⟩
  rw [render_comp_about ab h args hd tl]
  simp only [strAssoc]

theorem render_comp_about_tail (ab : String) (h : (ab.length != 0) = true)
    (args : List String) (hd tl : Err) :
    ∃ p, render (.comp ab args hd tl) = p ++ render tl := by
  refine ⟨ab ++ " " ++ fmtHead (render hd) args ++ ": ", ?_⟩
  rw [render_comp_about ab h args hd tl]

theorem render_comp_about_nil (ab : String) (h : (ab.length != 0) = true)
    (args : List String) (hd : Err) :
    render (.comp ab args hd .nilE)
      = ab ++ " " ++ fmtHead (render hd) args ++ ": %!s(<nil>)" := by
  rw [render_comp_about ab h args hd .nilE,
    strAssoc (ab ++ " " ++ fmtHead (render hd) args) ": " (render .nilE)]
  rfl

theorem render_comp_fast_nil (args : List String) (hd : Err) :
    render (.comp "" args hd .nilE) = fmtHead (render hd) args ++ ": %!s(<nil>)" := by
  rw [render_comp_fast args hd .nilE, strAssoc]
  rfl

theorem extraArgs_no_bracket (l : List String) (h : ∀ a ∈ l, '[' ∉ a.data) :
    '[' ∉ (extraArgs l).data := by
  induction l with
  | nil => simp [extraArgs]
  | cons a rest ih =>
    cases rest with
    | nil => simp_all [extraArgs, String.data_append]
    | cons b r => simp_all [extraArgs, String.data_append]

theorem sprintfGo_no_bracket (f : List Char) (args : List String)
    (hf : '[' ∉ f) (ha : ∀ a ∈ args, '[' ∉ a.data) :
    '[' ∉ (sprintfGo f args).data := by
  induction f, args using sprintfGo.induct <;>
    simp_all [sprintfGo, String.data_append, String.singleton] <;>
    exact extraArgs_no_bracket _ (by simp_all)

theorem asTimeout_none (e : Err) (h : chainHas implTimeout e = false) :
    asTimeout e = none := by
  induction e <;> simp_all [chainHas, implTimeout, asTimeout]

theorem asNotFound_none (e : Err) (h : chainHas implNotFound e = false) :
    asNotFound e = none := by
  induction e <;> simp_all [chainHas, implNotFound, asNotFound]

theorem asStatusCode_eq_none (e : Err) : asStatusCode e = none := by
  induction e <;> simp_all [asStatusCode]

theorem asPreCond_eq_none (e : Err) : asPreCond e = none := by
  induction e <;> simp_all [asPreCond]

theorem asConflict_eq_none (e : Err) : asConflict e = none := by
  induction e <;> simp_all [asConflict]

theorem asGone_eq_none (e : Err) : asGone e = none := by
  induction e <;> simp_all [asGone]

/-! ## Claim theorems -/

/-- C1: for every context value declared with template `"b %s"` and every
non-nil cause whose rendering is `"just error"`, combining with argument
`"b"` yields an error whose rendered string ends in `"b b: just error"`:
the `%s` placeholder is substituted positionally with `"b"`, then `": "`
and the cause's rendering are appended (shown for the caller-capturing
`Type` variant at every caller location, for `Fast`, and for `Safe1`). -/
theorem c1_template_substitution_then_cause (name : String) (line : Nat)
    (E : Err) (hnil : E ≠ .nilE) (h : render E = "just error") :
    (∃ p, render (TypeWith "b %s" name line E ["b"]) = p ++ "b b: just error")
    ∧ (∃ p, render (FastWith "b %s" E ["b"]) = p ++ "b b: just error")
    ∧ (∃ p, render (Safe1With "b %s" name line E "b") = p ++ "b b: just error") := by
  refine ⟨⟨aboutStr name line ++ " ", ?_⟩, ⟨"", ?_⟩, ⟨aboutStr name line ++ " ", ?_⟩⟩
  · show (((aboutStr name line ++ " ") ++ fmtHead (render (.typeC "b %s")) ["b"]) ++ ": ")
        ++ render E = _
    rw [h]
    have hf : fmtHead (render (Err.typeC "b %s")) ["b"] = "b b" := by decide
    rw [hf, strAssoc, strAssoc]
    rfl
  · show ((("" : String) ++ fmtHead (render (.fastC "b %s")) ["b"]) ++ ": ") ++ render E = _
    rw [h]
    have hf : fmtHead (render (Err.fastC "b %s")) ["b"] = "b b" := by decide
    rw [hf, strAssoc]
    rfl
  · show (((aboutStr name line ++ " ") ++ fmtHead (render (.safe1C "b %s")) ["b"]) ++ ": ")
        ++ render E = _
    rw [h]
    have hf : fmtHead (render (Err.safe1C "b %s")) ["b"] = "b b" := by decide
    rw [hf, strAssoc, strAssoc]
    rfl

/-- C1 witness: the test scenario of `errors_test.go` (`errB.With(err, "b")`
with `err = fmt.Errorf("just error")`). -/
theorem c1_witness :
    ∃ p, render (TypeWith "b %s" "github.com/fogfish/faults_test.TestType" 27
      (.base "just error") ["b"]) = p ++ "b b: just error" :=
  (c1_template_substitution_then_cause "github.com/fogfish/faults_test.TestType" 27
    (.base "just error") (by decide) rfl).1

/-- C3 counterexample: the claim asserts `IsNotFound(K.With(nil, k))` for
EVERY key `k`, but with the empty key the predicate (called without
candidates) requires a non-empty reported key and answers false. -/
theorem c3_counterexample :
    IsNotFound (ErrNotFoundWith "key %s is not found" "f" 24 .nilE "") [] = false := by
  decide

/-- C3 (amended): the NotFound state machine, with the combined case
restricted to non-empty keys (forced by the counterexample): a
declared-but-never-combined `ErrNotFound` kind is not NotFound; combining
with a non-empty key `k` is NotFound; probing with a different candidate
key answers false; probing with the key itself answers true. -/
theorem c3_notfound_state (tmpl name k k' : String) (line : Nat) :
    IsNotFound (.notFoundC tmpl) [] = false
    ∧ (k ≠ "" → IsNotFound (ErrNotFoundWith tmpl name line .nilE k) [] = true)
    ∧ (k ≠ k' → IsNotFound (ErrNotFoundWith tmpl name line .nilE k) [k'] = false)
    ∧ IsNotFound (ErrNotFoundWith tmpl name line .nilE k) [k] = true := by
  refine ⟨rfl, fun h => ?_, fun h => ?_, ?_⟩
  · simp [IsNotFound, asNotFound, ErrNotFoundWith, Safe1With, h]
  · simp [IsNotFound, asNotFound, ErrNotFoundWith, Safe1With, h]
  · simp [IsNotFound, asNotFound, ErrNotFoundWith, Safe1With]

/-- C3 witness: the test scenario of the `ErrNotFound` test (key `"key"`)
plus a negative candidate probe. -/
theorem c3_witness :
    IsNotFound (ErrNotFoundWith "key %s is not found" "f" 24 .nilE "key") [] = true
    ∧ IsNotFound (ErrNotFoundWith "key %s is not found" "f" 24 .nilE "key") ["other"] = false :=
  ⟨(c3_notfound_state "key %s is not found" "f" "key" "other" 24).2.1 (by decide),
   (c3_notfound_state "key %s is not found" "f" "key" "other" 24).2.2.1 (by decide)⟩

/-- C4 counterexample: combining `Fast("a")` with a nil cause does NOT
render to just the formatted template: `errType.Error` unconditionally
appends `fmt.Sprintf(": %s", tl)`, which for a nil tail is
`": %!s(<nil>)"`. -/
theorem c4_counterexample :
    render (FastWith "a" .nilE []) = "a: %!s(<nil>)"
    ∧ render (FastWith "a" .nilE []) ≠ "a" := by
  constructor <;> decide

/-- C4 (amended): for every context value — `Type`, `Fast`, each
`Safe1`..`Safe5` and the `ErrNotFound` domain kind — the cause's
rendering is a suffix of the combined rendering when a cause is given;
when the cause is nil the rendering is the (location-prefixed) formatted
template followed by `": %!s(<nil>)"` (Go's nil rendering) — the suffix
is not omitted, forced by the counterexample. -/
theorem c4_nil_cause_rendering (tmpl name : String) (line : Nat)
    (args : List String) (a b c d e : String) (E : Err) :
    (E ≠ .nilE →
      (∃ p, render (TypeWith tmpl name line E args) = p ++ render E)
      ∧ (∃ p, render (FastWith tmpl E args) = p ++ render E)
      ∧ (∃ p, render (Safe1With tmpl name line E a) = p ++ render E)
      ∧ (∃ p, render (Safe2With tmpl name line E a b) = p ++ render E)
      ∧ (∃ p, render (Safe3With tmpl name line E a b c) = p ++ render E)
      ∧ (∃ p, render (Safe4With tmpl name line E a b c d) = p ++ render E)
      ∧ (∃ p, render (Safe5With tmpl name line E a b c d e) = p ++ render E)
      ∧ (∃ p, render (ErrNotFoundWith tmpl name line E a) = p ++ render E))
    ∧ render (TypeWith tmpl name line .nilE args)
        = aboutStr name line ++ " " ++ fmtHead tmpl args ++ ": %!s(<nil>)"
    ∧ render (FastWith tmpl .nilE args) = fmtHead tmpl args ++ ": %!s(<nil>)"
    ∧ render (Safe1With tmpl name line .nilE a)
        = aboutStr name line ++ " " ++ fmtHead tmpl [a] ++ ": %!s(<nil>)"
    ∧ render (Safe2With tmpl name line .nilE a b)
        = aboutStr name line ++ " " ++ fmtHead tmpl [a, b] ++ ": %!s(<nil>)"
    ∧ render (Safe3With tmpl name line .nilE a b c)
        = aboutStr name line ++ " " ++ fmtHead tmpl [a, b, c] ++ ": %!s(<nil>)"
    ∧ render (Safe4With tmpl name line .nilE a b c d)
        = aboutStr name line ++ " " ++ fmtHead tmpl [a, b, c, d] ++ ": %!s(<nil>)"
    ∧ render (Safe5With tmpl name line .nilE a b c d e)
        = aboutStr name line ++ " " ++ fmtHead tmpl [a, b, c, d, e] ++ ": %!s(<nil>)"
    ∧ render (ErrNotFoundWith tmpl name line .nilE a)
        = aboutStr name line ++ " " ++ fmtHead tmpl [a] ++ ": %!s(<nil>)" := by
  refine ⟨fun _ => ?_, ?_, ?_, ?_, ?_, ?_, ?_, ?_, ?_⟩
  · refine ⟨?_, ⟨(("" : String) ++ fmtHead (render (.fastC tmpl)) args) ++ ": ", rfl⟩,
      ?_, ?_, ?_, ?_, ?_, ?_⟩
    · exact render_comp_about_tail _ (aboutStr_length_ne name line) args (.typeC tmpl) E
    · exact render_comp_about_tail _ (aboutStr_length_ne name line) [a] (.safe1C tmpl) E
    · exact render_comp_about_tail _ (aboutStr_length_ne name line) [a, b] (.safe2C tmpl) E
    · exact render_comp_about_tail _ (aboutStr_length_ne name line) [a, b, c] (.safe3C tmpl) E
    · exact render_comp_about_tail _ (aboutStr_length_ne name line) [a, b, c, d] (.safe4C tmpl) E
    · exact render_comp_about_tail _ (aboutStr_length_ne name line) [a, b, c, d, e]
        (.safe5C tmpl) E
    · exact render_comp_about_tail _ (aboutStr_length_ne name line) [a] (.safe1C tmpl) E
  · exact render_comp_about_nil _ (aboutStr_length_ne name line) args (.typeC tmpl)
  · exact render_comp_fast_nil args (.fastC tmpl)
  · exact render_comp_about_nil _ (aboutStr_length_ne name line) [a] (.safe1C tmpl)
  · exact render_comp_about_nil _ (aboutStr_length_ne name line) [a, b] (.safe2C tmpl)
  · exact render_comp_about_nil _ (aboutStr_length_ne name line) [a, b, c] (.safe3C tmpl)
  · exact render_comp_about_nil _ (aboutStr_length_ne name line) [a, b, c, d] (.safe4C tmpl)
  · exact render_comp_about_nil _ (aboutStr_length_ne name line) [a, b, c, d, e] (.safe5C tmpl)
  · exact render_comp_about_nil _ (aboutStr_length_ne name line) [a] (.safe1C tmpl)

/-- C4 witness: a concrete cause's rendering is a suffix of the combined
rendering for the `Type` and `Fast` variants. -/
theorem c4_witness :
    (∃ p, render (TypeWith "a" "f" 3 (.base "just error") [])
        = p ++ render (.base "just error"))
    ∧ ∃ p, render (FastWith "a" (.base "just error") []) = p ++ render (.base "just error") :=
  ⟨((c4_nil_cause_rendering "a" "f" 3 [] "" "" "" "" "" (.base "just error")).1
      (by decide)).1,
   ((c4_nil_cause_rendering "a" "f" 3 [] "" "" "" "" "" (.base "just error")).1
      (by decide)).2.1⟩

/-- C5 counterexample: with `A = Fast("x")` and `B = Type("x")` (two
distinct declared context values with identical template text) and the
cause `E = B` itself (a bare context value is a valid error), the
combined `A.With(E)` DOES match `B`, against the claim's universal
quantification over every error `E`. -/
theorem c5_counterexample :
    isErr (FastWith "x" (.typeC "x") []) (.typeC "x") = true := by decide

/-- C5 (amended): for distinct context values `A ≠ B` with identical
template text, and every cause `E` that does not itself match `B`
(forced by the counterexample), the combination of `A` with `E` — a
composite with head `A` and tail `E`, the shape every variant's `With`
produces — does not match `B`: identity is the declared value (dynamic
type and text), never re-derived by searching for the template text. -/
theorem c5_distinct_identity (A B : Err) (hA : isCtxVal A = true)
    (hB : isCtxVal B = true) (hne : A ≠ B) (htmpl : render A = render B)
    (about : String) (args : List String) (E : Err) (hE : isErr E B = false) :
    isErr (.comp about args A E) B = false := by
  have hBnil : B ≠ Err.nilE := by
    cases B <;> simp_all [isCtxVal]
  rw [isErr_eq_isRec hBnil] at hE ⊢
  have h1 : decide (Err.comp about args A E = B) = false :=
    decide_eq_false (fun h => by rw [← h] at hB; simp [isCtxVal] at hB)
  have h2 : isRec A B = false := by
    cases A <;> simp [isCtxVal] at hA <;> rw [isRec] <;>
      simp [decide_eq_false hne]
  rw [isRec]
  simp [h1, h2, hE]

/-- C5 witness: `Fast("x")` combined with a plain cause does not match the
identically worded `Type("x")`. -/
theorem c5_witness :
    isErr (.comp "" [] (.fastC "x") (.base "e")) (Err.typeC "x") = false :=
  c5_distinct_identity (.fastC "x") (.typeC "x") (by decide) (by decide)
    (by decide) (by decide) "" [] (.base "e") (by decide)

/-- C6: every declared-but-never-combined context value is itself a valid
error value and matches itself, without any prior combine call. -/
theorem c6_ctx_matches_self (e : Err) (h : isCtxVal e = true) : isErr e e = true := by
  have hnil : e ≠ Err.nilE := by
    cases e <;> simp_all [isCtxVal]
  rw [isErr_eq_isRec hnil]
  apply isRec_refl
  cases e <;> simp_all [isCtxVal, comparableTy]

/-- C6 witness: a bare `Type("a")` matches itself. -/
theorem c6_witness : isErr (Err.typeC "a") (Err.typeC "a") = true :=
  c6_ctx_matches_self (Err.typeC "a") (by decide)

/-- C7: every caller-capturing variant (`Type`, `Safe1`..`Safe5`) embeds
the bracketed location token `[identifier line]` (the `aboutStr` of the
supplied caller frame) at the front of its rendering; the
capture-disabled `Fast` variant adds no such token — its rendering
contains no `[` at all whenever the template, the arguments and the
cause's rendering contain none. -/
theorem c7_location_token (tmpl name : String) (line : Nat) (E : Err)
    (args : List String) (a b c d e : String) :
    (∃ rest, render (TypeWith tmpl name line E args) = aboutStr name line ++ " " ++ rest)
    ∧ (∃ rest, render (Safe1With tmpl name line E a) = aboutStr name line ++ " " ++ rest)
    ∧ (∃ rest, render (Safe2With tmpl name line E a b) = aboutStr name line ++ " " ++ rest)
    ∧ (∃ rest, render (Safe3With tmpl name line E a b c) = aboutStr name line ++ " " ++ rest)
    ∧ (∃ rest, render (Safe4With tmpl name line E a b c d) = aboutStr name line ++ " " ++ rest)
    ∧ (∃ rest, render (Safe5With tmpl name line E a b c d e) = aboutStr name line ++ " " ++ rest)
    ∧ ('[' ∉ tmpl.data → (∀ x ∈ args, '[' ∉ x.data) → '[' ∉ (render E).data →
        '[' ∉ (render (FastWith tmpl E args)).data) := by
  refine ⟨?_, ?_, ?_, ?_, ?_, ?_, fun h1 h2 h3 => ?_⟩
  · exact render_comp_loc _ (aboutStr_length_ne name line) args (.typeC tmpl) E
  · exact render_comp_loc _ (aboutStr_length_ne name line) [a] (.safe1C tmpl) E
  · exact render_comp_loc _ (aboutStr_length_ne name line) [a, b] (.safe2C tmpl) E
  · exact render_comp_loc _ (aboutStr_length_ne name line) [a, b, c] (.safe3C tmpl) E
  · exact render_comp_loc _ (aboutStr_length_ne name line) [a, b, c, d] (.safe4C tmpl) E
  · exact render_comp_loc _ (aboutStr_length_ne name line) [a, b, c, d, e] (.safe5C tmpl) E
  · rw [show render (FastWith tmpl E args)
        = fmtHead tmpl args ++ ": " ++ render E from rfl]
    simp only [String.data_append, List.mem_append]
    rintro ((hf | hc) | he)
    · revert hf
      unfold fmtHead
      split
      · exact fun hf => sprintfGo_no_bracket tmpl.data args h1 h2 hf
      · exact fun hf => h1 hf
    · revert hc
      decide
    · exact h3 he

/-- C7 witness: a concrete `Type` combination carries the `[f 3]` token
and a concrete `Fast` combination's rendering has no bracket. -/
theorem c7_witness :
    (∃ rest, render (TypeWith "a" "f" 3 (.base "x") []) = aboutStr "f" 3 ++ " " ++ rest)
    ∧ '[' ∉ (render (FastWith "a" (.base "x") [])).data :=
  ⟨(c7_location_token "a" "f" 3 (.base "x") [] "" "" "" "" "").1,
   (c7_location_token "a" "f" 3 (.base "x") [] "" "" "" "" "").2.2.2.2.2.2
     (by decide) (by simp) (by decide)⟩

/-- C8: every behavior predicate answers false, never failing, when no
node of the error's chain tree implements the queried capability
accessor (`StatusCode`, `PreConditionFailed`, `Conflict` and `Gone` have
no implementer in this universe at all); and when the `Timeout`
capability is found, `IsTimeout err deadline` is true exactly when the
reported duration is at least the caller-supplied deadline. -/
theorem c8_behavior_predicates (e : Err) (deadline d : Int) (ks cs : List String) :
    (chainHas implTimeout e = false → IsTimeout e deadline = false)
    ∧ (asTimeout e = some d → (IsTimeout e deadline = true ↔ deadline ≤ d))
    ∧ (chainHas implNotFound e = false → IsNotFound e ks = false)
    ∧ IsStatusCode e cs = false
    ∧ IsPreConditionFailed e = false
    ∧ IsConflict e = false
    ∧ IsGone e = false := by
  refine ⟨fun h => ?_, fun h => ?_, fun h => ?_, ?_, ?_, ?_, ?_⟩
  · simp [IsTimeout, asTimeout_none e h]
  · simp [IsTimeout, h]
  · simp [IsNotFound, asNotFound_none e h]
  · simp [IsStatusCode, asStatusCode_eq_none e]
  · simp [IsPreConditionFailed, asPreCond_eq_none e]
  · simp [IsConflict, asConflict_eq_none e]
  · simp [IsGone, asGone_eq_none e]

/-- C8 witness: a plain error is not a timeout; a timeout of 5 meets a
deadline of 3; a plain error is not NotFound. -/
theorem c8_witness :
    IsTimeout (Err.base "x") 3 = false
    ∧ IsTimeout (Err.timeoutE "t" 5) 3 = true
    ∧ IsNotFound (Err.base "x") [] = false :=
  ⟨(c8_behavior_predicates (Err.base "x") 3 0 [] []).1 (by decide),
   ((c8_behavior_predicates (Err.timeoutE "t" 5) 3 5 [] []).2.1 rfl).mpr (by decide),
   (c8_behavior_predicates (Err.base "x") 3 0 [] []).2.2.1 (by decide)⟩

/-- C9: rendering is total and deterministic for every argument count:
the rendering of a combination is a fixed concatenation of the location,
the formatted head and the tail for all inputs, and mismatched counts
degrade to Go's literal markers (a missing argument prints
`%!s(MISSING)`, a surplus argument appends `%!(EXTRA string=..)`)
instead of failing. -/
theorem c9_render_total (tmpl name : String) (line : Nat) (args : List String) (E : Err) :
    render (TypeWith tmpl name line E args)
      = aboutStr name line ++ " " ++ fmtHead tmpl args ++ ": " ++ render E
    ∧ render (FastWith tmpl E args) = fmtHead tmpl args ++ ": " ++ render E
    ∧ sprintfS "b %s" [] = "b %!s(MISSING)"
    ∧ sprintfS "b" ["x"] = "b%!(EXTRA string=x)" :=
  ⟨render_comp_about _ (aboutStr_length_ne name line) args (.typeC tmpl) E,
   rfl, by decide, by decide⟩

/-- C10: with the empty key, the `NotFound()` capability accessor exists
and reports `""`, yet `IsNotFound` without candidate keys answers false
(only a non-empty key counts by default) while `IsNotFound` with the
explicit candidate `""` answers true. -/
theorem c10_empty_key (tmpl name : String) (line : Nat) :
    asNotFound (ErrNotFoundWith tmpl name line .nilE "") = some ""
    ∧ IsNotFound (ErrNotFoundWith tmpl name line .nilE "") [] = false
    ∧ IsNotFound (ErrNotFoundWith tmpl name line .nilE "") [""] = true := by
  refine ⟨rfl, ?_, ?_⟩ <;> simp [IsNotFound, asNotFound, ErrNotFoundWith, Safe1With]

end Faults
